import Mathlib

/-!
Verification of the agentic RAG query-orchestration pipeline.

This development shallowly embeds the core pipeline of the repository:
the input validator (`src/guardrails/input_validator.py`), the relevance
scorer (`src/guardrails/relevance_scorer.py`), the hallucination detector
(`src/guardrails/hallucination_detector.py`), the vector-store filter
(`src/vector_store/chroma_manager.py`), the agent nodes
(`src/agents/nodes.py`) and the LangGraph workflow / orchestrator
(`src/agents/graph.py`).

Modelling conventions:
* Python floats are modelled as rationals (the code only compares and
  clamps them; no float rounding is relevant to the properties proved).
* External calls (language model, vector index, web search) are oracles
  supplied through an `Env` record; `LLMCall.raise` models the call
  raising an exception that is not a `ValueError`/`AttributeError`,
  `LLMCall.ok c` models a normal return whose `.content` is `c`.
* Python `float(...)` parsing is modelled by an abstract
  `pyFloat : String → Option ℚ` in the environment (`none` models a
  `ValueError`; a `None` content, which would give an `AttributeError`,
  is folded into the same caught-parse-failure case).
* Regular-expression matching is modelled over the ASCII range: `\b` uses
  the word-character class `[A-Za-z0-9_]` and case folding is ASCII
  `Char.toLower`, matching Python's behaviour on ASCII text.
* Fields of the Python state that no claim touches (`sources`,
  `search_results`) are omitted; logging and telemetry side effects are
  not modelled.  Wall-clock `processing_time` is modelled by a boolean
  flag recording that the orchestrator populated it.
-/

namespace AgenticRAG

/-! ### Character and string helpers (Python `re` / `str` on ASCII) -/

/-- Python whitespace characters (ASCII range), as used by `str.strip`. -/
def isSpaceChar (c : Char) : Bool :=
  c == ' ' || c == '\t' || c == '\n' || c == '\r' || c == '\x0b' || c == '\x0c'

/-- Word character for the regex `\b` boundary, ASCII range: `[A-Za-z0-9_]`. -/
def isWordChar (c : Char) : Bool :=
  c.isAlphanum || c == '_'

/-- Python `str.strip()` on a character list (ASCII whitespace). -/
def stripChars (l : List Char) : List Char :=
  ((l.dropWhile isSpaceChar).reverse.dropWhile isSpaceChar).reverse

/-- Python `str.strip()` (ASCII whitespace). -/
def pyStrip (s : String) : String :=
  String.mk (stripChars s.data)

/-- Python `str.split(sep)` for a one-character separator: splits on every
occurrence, keeping empty pieces (`''.split(sep) == ['']`). -/
def splitOnChar (sep : Char) : List Char → List (List Char)
  | [] => [[]]
  | c :: rest =>
    let r := splitOnChar sep rest
    if c = sep then [] :: r
    else
      match r with
      | [] => [[c]]
      | h :: t => (c :: h) :: t

/-- Python `str.lower()` (ASCII range). -/
def pyLower (s : String) : String :=
  String.mk (s.data.map Char.toLower)

/-- Executable infix test: `needle` occurs contiguously inside `hay`. -/
def listInfix (needle : List Char) : List Char → Bool
  | [] => needle.isPrefixOf ([] : List Char)
  | c :: rest => needle.isPrefixOf (c :: rest) || listInfix needle rest

/-- Python `pat in s` substring test (case sensitive). -/
def containsStr (pat : String) (hay : List Char) : Bool :=
  listInfix pat.data hay

/-- Case-insensitive substring search: `re.search(pat, s, re.IGNORECASE)` for a
pattern with no metacharacters. -/
def containsCI (pat : String) (hay : List Char) : Bool :=
  listInfix (pat.data.map Char.toLower) (hay.map Char.toLower)

/-- Whether the character following a match of `kw` at the head of `hay` is
absent or a non-word character (the trailing `\b`). -/
def boundaryAfter (kw hay : List Char) : Bool :=
  match hay.drop kw.length with
  | [] => true
  | c :: _ => !(isWordChar c)

/-- Scan `hay` for an occurrence of `kw` delimited by word boundaries;
`prevIsWord` records whether the character just before the current
position is a word character (the leading `\b`). -/
def containsWordAux (kw : List Char) (prevIsWord : Bool) : List Char → Bool
  | [] => !prevIsWord && kw.isPrefixOf ([] : List Char) && boundaryAfter kw []
  | c :: rest =>
    (!prevIsWord && kw.isPrefixOf (c :: rest) && boundaryAfter kw (c :: rest))
      || containsWordAux kw (isWordChar c) rest

/-- Case-insensitive whole-word search: `re.search(r"\bKW\b", s, re.IGNORECASE)`
on ASCII text. -/
def containsWordCI (kw : String) (hay : List Char) : Bool :=
  containsWordAux (kw.data.map Char.toLower) false (hay.map Char.toLower)

/-! ### InputValidator (`src/guardrails/input_validator.py`) -/

/-- Keyword alternatives of the first `SQL_INJECTION_PATTERNS` entry,
`r"(\b(SELECT|INSERT|UPDATE|DELETE|DROP|CREATE|ALTER|EXEC|EXECUTE)\b)"`. -/
def SQL_KEYWORDS : List String :=
  ["SELECT", "INSERT", "UPDATE", "DELETE", "DROP", "CREATE", "ALTER", "EXEC", "EXECUTE"]

/-- Literal alternatives of the second `SQL_INJECTION_PATTERNS` entry,
`r"(;|\-\-|\/\*|\*\/|xp_|sp_)"`. -/
def SQL_PUNCT : List String :=
  [";", "--", "/*", "*/", "xp_", "sp_"]

/-- Whether any SQL-injection pattern matches the query. -/
def hasSQLPattern (q : List Char) : Bool :=
  (SQL_KEYWORDS.any fun kw => containsWordCI kw q)
    || (SQL_PUNCT.any fun p => containsCI p q)

/-- Alternatives of the regex `r"ignore (previous|above|all) (instructions|rules)"`. -/
def PROMPT_WORDS_A : List String := ["previous", "above", "all"]

/-- Second alternation group of the same regex. -/
def PROMPT_WORDS_B : List String := ["instructions", "rules"]

/-- Whether any `PROMPT_INJECTION_PATTERNS` entry matches the query. -/
def hasPromptInjection (q : List Char) : Bool :=
  (PROMPT_WORDS_A.any fun a => PROMPT_WORDS_B.any fun b =>
    containsCI ("ignore " ++ a ++ " " ++ b) q)
    || containsCI "you are now" q
    || containsCI "system prompt" q
    || containsCI "disregard" q

/-- Result shape of `InputValidator.validate_query`. -/
structure ValidationResult where
  valid : Bool
  reason : String
deriving DecidableEq, Repr

/-- `InputValidator.MAX_QUERY_LENGTH`. -/
def MAX_QUERY_LENGTH : ℕ := 1000

/-- `InputValidator.validate_query`.  The PII patterns are checked in the
source but only logged — they never change the returned verdict — so they
are not modelled. -/
def validate_query (query : String) : ValidationResult :=
  if MAX_QUERY_LENGTH < query.length then
    { valid := false, reason := "Query too long (max 1000 characters)" }
  else if query.data.all isSpaceChar then
    { valid := false, reason := "Query cannot be empty" }
  else if hasSQLPattern query.data then
    { valid := false, reason := "Query contains potentially malicious SQL patterns" }
  else if hasPromptInjection query.data then
    { valid := false, reason := "Query contains suspicious prompt manipulation patterns" }
  else
    { valid := true, reason := "" }

/-! ### Configuration (`config.py`) and documents -/

/-- Threshold configuration consumed by the core (`config.retrieval` and
`config.guardrails`).  Kept abstract: every value the environment supplies
is admitted, the defaults being `0.7`, `0.6`, `0.7`. -/
structure Config where
  similarity_threshold : ℚ
  relevance_threshold : ℚ
  hallucination_threshold : ℚ
deriving DecidableEq, Repr

/-- Retrieved passage (`langchain` `Document`): the page content plus the
two metadata entries the pipeline reads. -/
structure Document where
  page_content : String
  source_file : String
  page : String
deriving DecidableEq, Repr

/-! ### External-call oracles -/

/-- Outcome of one `llm.invoke(prompt)` call: `ok content` models a normal
return whose `.content` is `content`; `raise msg` models the call raising
an exception (of a kind other than `ValueError`/`AttributeError`). -/
inductive LLMCall where
  | ok (content : String)
  | raise (msg : String)
deriving DecidableEq, Repr

/-- One structured web-search result from `SerperClient.search_with_metadata`. -/
structure SearchHit where
  title : String
  link : String
  snippet : String
deriving DecidableEq, Repr

/-! ### ChromaManager (`src/vector_store/chroma_manager.py`) -/

/-- `ChromaManager.similarity_search_with_score`: `raw` is what the
underlying `vector_store.similarity_search_with_score` call produces (an
exception or a scored result list); the wrapper filters out results whose
score is below the configured similarity threshold and maps any exception
to the empty list. -/
def similarity_search_with_score (cfg : Config)
    (raw : Except String (List (Document × ℚ))) : List (Document × ℚ) :=
  match raw with
  | .error _ => []
  | .ok results => results.filter fun ds => cfg.similarity_threshold ≤ ds.2

/-- Result shape of `AgentTools.rag_tool` (the `sources` attribution list,
which no claim touches, is omitted). -/
structure RagResult where
  documents : List Document
  scores : List ℚ
  success : Bool
deriving DecidableEq, Repr

/-- `AgentTools.rag_tool`: passes the filtered store results through and
reports success iff at least one document survived. -/
def rag_tool (cfg : Config) (raw : Except String (List (Document × ℚ))) : RagResult :=
  let results := similarity_search_with_score cfg raw
  { documents := results.map Prod.fst
    scores := results.map Prod.snd
    success := decide (0 < (results.map Prod.fst).length) }

/-! ### RelevanceScorer (`src/guardrails/relevance_scorer.py`) -/

/-- Result shape of `RelevanceScorer.score_relevance` (the `reason` string
is only logged and is omitted). -/
structure RelevanceResult where
  score : ℚ
  is_relevant : Bool
deriving DecidableEq, Repr

/-- `RelevanceScorer.score_relevance`.  Empty evidence short-circuits
before any model call.  A model response whose content does not parse as a
float is caught (`ValueError`/`AttributeError`) and defaults to
`score = 0.5, is_relevant = true`; any other exception from the model call
propagates (`Except.error`), since the `except` clause only names those
two exception types. -/
def score_relevance (cfg : Config) (pyFloat : String → Option ℚ)
    (call : LLMCall) (documents : List Document) : Except String RelevanceResult :=
  if documents.isEmpty then
    .ok { score := 0, is_relevant := false }
  else
    match call with
    | .raise msg => .error msg
    | .ok content =>
      match pyFloat (pyStrip content) with
      | none => .ok { score := mkRat 1 2, is_relevant := true }
      | some s0 =>
        let score := max 0 (min 1 s0)
        .ok { score := score, is_relevant := decide (cfg.relevance_threshold ≤ score) }

/-! ### HallucinationDetector (`src/guardrails/hallucination_detector.py`) -/

/-- Result shape of `HallucinationDetector.check_grounding` (the `reason`
string is omitted). -/
structure GroundingResult where
  is_grounded : Bool
  confidence : ℚ
deriving DecidableEq, Repr

/-- `HallucinationDetector.check_grounding`.  Source types `"llm"` and
`"search"` short-circuit to grounded with confidence 1; a falsy context
(Python `if not context`: `None` or the empty string) forces ungrounded
with confidence 0; otherwise the model is consulted, parse failures are
caught and default to grounded with confidence 0.5, and any other
exception from the model call propagates. -/
def check_grounding (cfg : Config) (pyFloat : String → Option ℚ)
    (call : LLMCall) (context : Option String) (source_type : String) :
    Except String GroundingResult :=
  if source_type = "llm" ∨ source_type = "search" then
    .ok { is_grounded := true, confidence := 1 }
  else if context = none ∨ context = some "" then
    .ok { is_grounded := false, confidence := 0 }
  else
    match call with
    | .raise msg => .error msg
    | .ok content =>
      match pyFloat (pyStrip content) with
      | none => .ok { is_grounded := true, confidence := mkRat 1 2 }
      | some c0 =>
        let confidence := max 0 (min 1 c0)
        .ok { is_grounded := decide (cfg.hallucination_threshold ≤ confidence)
              confidence := confidence }

/-! ### Intent classification parsing (`AgentNodes.query_analysis_node`) -/

/-- First line of the model response containing `Category:`
(`[l for l in content.split('\n') if 'Category:' in l][0]`). -/
def categoryLine (content : String) : Option (List Char) :=
  (splitOnChar '\n' content.data).find? fun l => containsStr "Category:" l

/-- First line of the model response containing `Confidence:`. -/
def confidenceLine (content : String) : Option (List Char) :=
  (splitOnChar '\n' content.data).find? fun l => containsStr "Confidence:" l

/-- Python `line.split(':')[1]`: the text between the first and second
colon (`none` models the `IndexError` when no colon is present). -/
def colonField (l : List Char) : Option (List Char) :=
  (splitOnChar ':' l).get? 1

/-- The try-block of `query_analysis_node` after the model call returned
`content`: extract the category and confidence lines, take the field after
the first colon of each, lower-case/strip the intent and `float(...)` the
confidence.  `none` models any exception inside the try-block
(missing line, missing colon field, unparsable confidence). -/
def parseAnalysis (pyFloat : String → Option ℚ) (content : String) :
    Option (String × ℚ) :=
  match categoryLine content with
  | none => none
  | some cat =>
    match confidenceLine content with
    | none => none
    | some conf =>
      match colonField cat, colonField conf with
      | some rawIntent, some rawConf =>
        match pyFloat (String.mk (stripChars rawConf)) with
        | none => none
        | some c => some (String.mk ((stripChars rawIntent).map Char.toLower), c)
      | _, _ => none

/-! ### Router (`AgentNodes.router_node`) -/

/-- Tool identifiers, as the strings `'rag'`, `'llm'`, `'search'`. -/
inductive Tool where
  | rag
  | llm
  | search
deriving DecidableEq, Repr

/-- Routing policy of `router_node`: the first branch fires when documents
exist and the intent is not `'search'`; the second branch maps a
recognised intent at confidence at least 0.7 to its tool and assigns
nothing (`none`) for an unrecognised intent — the Python `elif` chain has
no final `else`; the low-confidence branch defaults to `'rag'`. -/
def route (intent : Option String) (confidence : ℚ) (doc_count : ℕ) : Option Tool :=
  if 0 < doc_count ∧ intent ≠ some "search" then some Tool.rag
  else if mkRat 7 10 ≤ confidence then
    if intent = some "document" then some Tool.rag
    else if intent = some "knowledge" then some Tool.llm
    else if intent = some "search" then some Tool.search
    else none
  else some Tool.rag

/-- The three intent labels named by the routing policy of the spec. -/
inductive Intent3 where
  | document
  | knowledge
  | search
deriving DecidableEq, Repr

/-- The string label of each spec intent. -/
def Intent3.label : Intent3 → String
  | .document => "document"
  | .knowledge => "knowledge"
  | .search => "search"

/-- Modelled from the spec (section 4.3): the ordered three-rule routing
policy, total on the three intent labels.  Used only to compare the code's
`route` against the spec's wording. -/
def routeSpec (i : Intent3) (confidence : ℚ) (corpus_size : ℕ) : Tool :=
  if 0 < corpus_size ∧ i ≠ Intent3.search then Tool.rag
  else if mkRat 7 10 ≤ confidence then
    match i with
    | .document => Tool.rag
    | .knowledge => Tool.llm
    | .search => Tool.search
  else Tool.rag

/-! ### Agent state (`src/agents/state.py`, initialised in `AgentGraph.invoke`) -/

/-- The `AgentState` record threaded through the graph.  `sources` and
`search_results` (never read by any claim) are omitted; the wall-clock
`processing_time` is modelled by the flag `processing_time_set` recording
that the orchestrator wrote it. -/
structure AgentState where
  query : String
  is_valid : Bool
  validation_reason : String
  query_intent : Option String
  confidence : ℚ
  selected_tool : Option Tool
  retrieved_documents : List Document
  relevance_score : ℚ
  is_relevant : Bool
  response : String
  source_type : String
  is_grounded : Bool
  grounding_confidence : ℚ
  attempted_tools : List (Option Tool)
  needs_fallback : Bool
  error : Option String
  doc_count : ℕ
  processing_time_set : Bool
deriving DecidableEq, Repr

/-- The initial state built in `AgentGraph.invoke`. -/
def initial_state (query : String) (doc_count : ℕ) : AgentState :=
  { query := query
    is_valid := true
    validation_reason := ""
    query_intent := none
    confidence := 0
    selected_tool := none
    retrieved_documents := []
    relevance_score := 0
    is_relevant := false
    response := ""
    source_type := ""
    is_grounded := true
    grounding_confidence := 1
    attempted_tools := []
    needs_fallback := false
    error := none
    doc_count := doc_count
    processing_time_set := false }

/-- Oracles for every external effect one pipeline run can perform:
the thresholds, the Python float parser, the vector-store document count,
and the outcome of each model / index / web call, keyed by call site. -/
structure Env where
  cfg : Config
  pyFloat : String → Option ℚ
  doc_count : ℕ
  analysisCall : LLMCall
  chromaRaw : Except String (List (Document × ℚ))
  llmToolCall : LLMCall
  searchResults : List SearchHit
  searchGenCall : LLMCall
  scorerCall : LLMCall
  synthesisCall : LLMCall
  groundingCall : LLMCall

/-! ### Nodes (`src/agents/nodes.py`) -/

/-- `AgentNodes.input_validation_node`. -/
def input_validation_node (s : AgentState) : AgentState :=
  let v := validate_query s.query
  { s with is_valid := v.valid, validation_reason := v.reason }

/-- `AgentNodes.query_analysis_node`: on any exception in the try-block
(model call raised, or the response failed to parse) the state gets the
safe default `intent = 'document'`, `confidence = 0.5`. -/
def query_analysis_node (env : Env) (s : AgentState) : AgentState :=
  match env.analysisCall with
  | .raise _ => { s with query_intent := some "document", confidence := mkRat 1 2 }
  | .ok content =>
    match parseAnalysis env.pyFloat content with
    | some ic => { s with query_intent := some ic.1, confidence := ic.2 }
    | none => { s with query_intent := some "document", confidence := mkRat 1 2 }

/-- `AgentNodes.router_node`: applies the routing policy; when the policy
assigns nothing the previous `selected_tool` value is kept (the Python
branch simply does not write the key).  The chosen value — whatever it is —
is appended to `attempted_tools`. -/
def router_node (s : AgentState) : AgentState :=
  let sel :=
    match route s.query_intent s.confidence s.doc_count with
    | some t => some t
    | none => s.selected_tool
  { s with selected_tool := sel, attempted_tools := s.attempted_tools ++ [sel] }

/-- `AgentNodes.rag_node`. -/
def rag_node (env : Env) (s : AgentState) : AgentState :=
  let result := rag_tool env.cfg env.chromaRaw
  let s1 := { s with retrieved_documents := result.documents }
  if result.success then s1 else { s1 with needs_fallback := true }

/-- `AgentNodes.llm_node` (the `llm_tool` catches every exception, so the
node is total: failure only sets `needs_fallback`). -/
def llm_node (env : Env) (s : AgentState) : AgentState :=
  match env.llmToolCall with
  | .ok content => { s with response := content, source_type := "llm" }
  | .raise _ => { s with needs_fallback := true }

/-- `AgentNodes.search_node` (`search_tool` catches every exception and the
in-node response generation has its own catch-all, so the node is total). -/
def search_node (env : Env) (s : AgentState) : AgentState :=
  if 0 < env.searchResults.length then
    match env.searchGenCall with
    | .ok content => { s with response := content, source_type := "search" }
    | .raise _ => { s with needs_fallback := true }
  else { s with needs_fallback := true }

/-- `AgentNodes.relevance_check_node`: empty evidence short-circuits with
no scorer call; otherwise a scorer exception propagates out of the node. -/
def relevance_check_node (env : Env) (s : AgentState) : Except String AgentState :=
  if s.retrieved_documents.isEmpty then
    .ok { s with is_relevant := false, relevance_score := 0, needs_fallback := true }
  else
    match score_relevance env.cfg env.pyFloat env.scorerCall s.retrieved_documents with
    | .error e => .error e
    | .ok r =>
      let s1 := { s with is_relevant := r.is_relevant, relevance_score := r.score }
      .ok (if r.is_relevant then s1 else { s1 with needs_fallback := true })

/-- `AgentNodes.response_synthesis_node` (its try-block catches every
exception, so the node is total). -/
def response_synthesis_node (env : Env) (s : AgentState) : AgentState :=
  if s.retrieved_documents.isEmpty then
    { s with response := "I couldn\x27t find relevant information in the uploaded documents."
             source_type := "none" }
  else
    match env.synthesisCall with
    | .ok content => { s with response := content, source_type := "rag" }
    | .raise msg => { s with response := "Error generating response.", error := some msg }

/-- Context assembled by `hallucination_check_node`: the first three
retrieved passages joined by blank lines, but only for `'rag'` answers. -/
def ragContext (s : AgentState) : Option String :=
  if s.source_type = "rag" then
    some (String.intercalate "\n\n" ((s.retrieved_documents.take 3).map Document.page_content))
  else none

/-- `AgentNodes.hallucination_check_node`: a detector exception propagates
out of the node; an ungrounded verdict appends the warning note to the
response exactly once. -/
def hallucination_check_node (env : Env) (s : AgentState) : Except String AgentState :=
  match check_grounding env.cfg env.pyFloat env.groundingCall (ragContext s) s.source_type with
  | .error e => .error e
  | .ok r =>
    let s1 := { s with is_grounded := r.is_grounded, grounding_confidence := r.confidence }
    .ok (if r.is_grounded then s1
         else { s1 with
                response := s1.response ++ "\n\nNote: This response may contain unverified information." })

/-! ### Graph and orchestrator (`src/agents/graph.py`) -/

/-- One execution of the compiled LangGraph workflow of
`AgentGraph._build_graph`: validation, then (if valid) analysis, routing,
the selected tool, the relevance gate with its fallback edge to the
knowledge tool on the retrieval branch, synthesis, and the grounding
check.  A `selected_tool` that is still unset at the router's conditional
edge has no entry in the branch map, which the graph library raises as an
error; node-level exceptions surface the same way. -/
def runGraph (env : Env) (s0 : AgentState) : Except String AgentState :=
  let s1 := input_validation_node s0
  if s1.is_valid then
    let s2 := query_analysis_node env s1
    let s3 := router_node s2
    match s3.selected_tool with
    | none => .error "Branch condition returned unknown or no value"
    | some Tool.rag =>
      let s4 := rag_node env s3
      match relevance_check_node env s4 with
      | .error e => .error e
      | .ok s5 =>
        if s5.is_relevant then
          hallucination_check_node env (response_synthesis_node env s5)
        else
          hallucination_check_node env (llm_node env s5)
    | some Tool.llm => hallucination_check_node env (llm_node env s3)
    | some Tool.search => hallucination_check_node env (search_node env s3)
  else .ok s1

/-- `AgentGraph.invoke`: builds the initial state (with the document count
snapshot), runs the graph, stamps the elapsed time, and converts any
escaped exception into a terminal state carrying the error text and a
generic user-safe answer. -/
def invoke (env : Env) (query : String) : AgentState :=
  let s0 := initial_state query env.doc_count
  match runGraph env s0 with
  | .ok r => { r with processing_time_set := true }
  | .error e =>
    { s0 with
      error := some e
      response := "An error occurred while processing your query."
      processing_time_set := true }

/-! ### Concrete instances used to exercise the theorems -/

/-- The default threshold configuration (`SIMILARITY_THRESHOLD = 0.7`,
`RELEVANCE_THRESHOLD = 0.6`, `HALLUCINATION_THRESHOLD = 0.7`). -/
def baseCfg : Config :=
  { similarity_threshold := mkRat 7 10
    relevance_threshold := mkRat 3 5
    hallucination_threshold := mkRat 7 10 }

/-- A baseline environment: no documents, every external call failing.
Concrete scenarios are built by overriding individual fields. -/
def envBase : Env :=
  { cfg := baseCfg
    pyFloat := fun _ => none
    doc_count := 0
    analysisCall := .raise "api error"
    chromaRaw := .ok []
    llmToolCall := .raise "api error"
    searchResults := []
    searchGenCall := .raise "api error"
    scorerCall := .raise "api error"
    synthesisCall := .raise "api error"
    groundingCall := .raise "api error" }

/-- Exactly one of three alternatives holds. -/
def ExactlyOne (a b c : Prop) : Prop :=
  (a ∧ ¬ b ∧ ¬ c) ∨ (¬ a ∧ b ∧ ¬ c) ∨ (¬ a ∧ ¬ b ∧ c)

/-! ### Helper lemmas -/

/-- When the routing policy assigns a tool, `router_node` writes it and
appends it to `attempted_tools`. -/
theorem router_node_of_route_some {s : AgentState} {t : Tool}
    (h : route s.query_intent s.confidence s.doc_count = some t) :
    router_node s =
      { s with selected_tool := some t, attempted_tools := s.attempted_tools ++ [some t] } := by
  unfold router_node
  rw [h]

/-! ### C1 — Router policy -/

/-- C1 (counterexample): with intent label `"unknown"`, confidence `0.9`
and an empty corpus, rule 2 of the policy applies but maps the intent to
no tool, so the Router selects nothing — refuting `routing always yields a
defined tool`. -/
theorem route_undefined_on_unrecognised_intent :
    route (some "unknown") (mkRat 9 10) 0 = none ∧ mkRat 7 10 ≤ mkRat 9 10 := by
  constructor
  · rfl
  · decide

/-- C1 (amended): for each of the three recognised intent labels
`document`, `knowledge`, `search`, and for every confidence value and
corpus size, the Router's selection is defined and equals the ordered
three-rule policy of the spec. -/
theorem route_matches_spec_policy_on_known_intents (i : Intent3) (confidence : ℚ)
    (corpus_size : ℕ) :
    route (some i.label) confidence corpus_size = some (routeSpec i confidence corpus_size) := by
  cases i <;>
    simp only [route, routeSpec, Intent3.label] <;>
    split_ifs <;>
    simp_all

/-! ### C2 — Groundedness Gate short-circuit -/

/-- C2 (counterexample): a `source_type` that is neither `"rag"` nor one
of `"llm"`/`"search"` — here the empty string, which is what the state
carries when the knowledge tool failed — is NOT short-circuited: with no
context the gate returns `is_grounded = false, confidence = 0`, refuting
the claim for answer sources other than retrieval in general. -/
theorem check_grounding_no_short_circuit_on_other_source :
    check_grounding baseCfg (fun _ => none) (LLMCall.ok "1.0") none "" =
      .ok { is_grounded := false, confidence := 0 } ∧ "" ≠ "rag" :=
  ⟨rfl, by decide⟩

/-- C2 (amended): for answer source `"llm"` (knowledge) or `"search"`, the
Groundedness Gate returns `is_grounded = true` and `confidence = 1.0`
without invoking the language model: the result is this constant for every
model-call oracle, every float parser and every context. -/
theorem check_grounding_short_circuit (cfg : Config) (pyFloat : String → Option ℚ)
    (call : LLMCall) (context : Option String) (st : String)
    (h : st = "llm" ∨ st = "search") :
    check_grounding cfg pyFloat call context st =
      .ok { is_grounded := true, confidence := 1 } := by
  rcases h with h | h <;> subst h <;> rfl

/-- C2 (witness): the short-circuit at `source_type = "llm"`, even when
the grounding model call would raise. -/
theorem check_grounding_short_circuit_witness :
    check_grounding baseCfg (fun _ => none) (LLMCall.raise "down") none "llm" =
      .ok { is_grounded := true, confidence := 1 } :=
  check_grounding_short_circuit baseCfg (fun _ => none) (LLMCall.raise "down") none "llm"
    (Or.inl rfl)

/-! ### C9 — Retrieval similarity filter -/

/-- C9: every (document, score) pair surviving
`similarity_search_with_score` — and hence every score the retrieval tool
returns — is at least the configured similarity threshold. -/
theorem retrieval_scores_above_threshold (cfg : Config)
    (raw : Except String (List (Document × ℚ))) :
    (∀ p ∈ similarity_search_with_score cfg raw, cfg.similarity_threshold ≤ p.2) ∧
    (∀ sc ∈ (rag_tool cfg raw).scores, cfg.similarity_threshold ≤ sc) := by
  have h1 : ∀ p ∈ similarity_search_with_score cfg raw, cfg.similarity_threshold ≤ p.2 := by
    intro p hp
    unfold similarity_search_with_score at hp
    cases raw with
    | error e => simp at hp
    | ok results =>
      have := List.mem_filter.mp hp
      exact of_decide_eq_true this.2
  refine ⟨h1, ?_⟩
  intro sc hsc
  unfold rag_tool at hsc
  simp only [List.mem_map] at hsc
  obtain ⟨p, hp, hpeq⟩ := hsc
  exact hpeq ▸ h1 p hp

/-- A concrete passage used by the scenario environments below. -/
def docA : Document := { page_content := "alpha", source_file := "a.pdf", page := "1" }

/-- C9 (witness): a concrete score `0.9` surviving the filter at
threshold `0.7`. -/
theorem retrieval_scores_above_threshold_witness :
    (docA, mkRat 9 10) ∈
      similarity_search_with_score baseCfg (.ok [(docA, mkRat 9 10)]) ∧
    baseCfg.similarity_threshold ≤ mkRat 9 10 :=
  ⟨by decide,
   (retrieval_scores_above_threshold baseCfg (.ok [(docA, mkRat 9 10)])).1
     (docA, mkRat 9 10) (by decide)⟩

/-! ### C10 — SQL-pattern rejection -/

/-- C10: a non-blank query within the length limit is rejected with the
SQL-pattern reason as soon as it contains any of the nine SQL keywords as
a standalone word (case-insensitively) or any of the six punctuation
tokens — a single occurrence suffices. -/
theorem sql_pattern_rejection (q : String)
    (hlen : q.length ≤ MAX_QUERY_LENGTH)
    (hblank : q.data.all isSpaceChar = false)
    (hpat : (SQL_KEYWORDS.any fun kw => containsWordCI kw q.data) = true ∨
            (SQL_PUNCT.any fun p => containsCI p q.data) = true) :
    validate_query q =
      { valid := false, reason := "Query contains potentially malicious SQL patterns" } := by
  unfold validate_query
  rw [if_neg (by omega), if_neg (by simp [hblank])]
  have hsql : hasSQLPattern q.data = true := by
    unfold hasSQLPattern
    rcases hpat with h | h <;> simp [h]
  rw [if_pos hsql]

/-- C10 (witness): the ordinary natural-language query
`"create a summary"` is rejected by the SQL-pattern rule. -/
theorem sql_pattern_rejection_witness :
    validate_query "create a summary" =
      { valid := false, reason := "Query contains potentially malicious SQL patterns" } :=
  sql_pattern_rejection "create a summary" (by decide) (by decide) (Or.inl (by decide))

/-! ### C8 — Intent Classifier safe default -/

/-- C8: whenever the classifier's model call raises, or its response lacks
a `Category:` line or a `Confidence:` line, or the confidence field does
not parse as a float, `query_analysis_node` stores the safe default
`intent = "document"`, `confidence = 0.5` instead of failing. -/
theorem query_analysis_safe_default (env : Env) (s : AgentState)
    (h : (∃ m, env.analysisCall = LLMCall.raise m) ∨
         (∃ c, env.analysisCall = LLMCall.ok c ∧
           (categoryLine c = none ∨ confidenceLine c = none ∨
            (∃ l t, confidenceLine c = some l ∧ colonField l = some t ∧
              env.pyFloat (String.mk (stripChars t)) = none)))) :
    (query_analysis_node env s).query_intent = some "document" ∧
    (query_analysis_node env s).confidence = mkRat 1 2 := by
  unfold query_analysis_node
  rcases h with ⟨m, hm⟩ | ⟨c, hc, hfail⟩
  · rw [hm]
    exact ⟨rfl, rfl⟩
  · rw [hc]
    have hparse : parseAnalysis env.pyFloat c = none := by
      unfold parseAnalysis
      rcases hfail with h1 | h2 | ⟨l, t, hl, ht, hp⟩
      · rw [h1]
      · cases hcat : categoryLine c with
        | none => rfl
        | some cat => rw [h2]
      · cases hcat : categoryLine c with
        | none => rfl
        | some cat =>
          rw [hl]
          dsimp only
          cases hcf : colonField cat with
          | none => rw [ht]
          | some ri =>
            rw [ht]
            dsimp only
            rw [hp]
    dsimp only
    rw [hparse]
    exact ⟨rfl, rfl⟩

/-- C8 (witness): an unstructured model response (no `Category:` line)
falls back to `intent = "document"`, `confidence = 0.5`. -/
theorem query_analysis_safe_default_witness :
    (query_analysis_node { envBase with analysisCall := LLMCall.ok "no structured output" }
        (initial_state "hi" 0)).query_intent = some "document" ∧
    (query_analysis_node { envBase with analysisCall := LLMCall.ok "no structured output" }
        (initial_state "hi" 0)).confidence = mkRat 1 2 :=
  query_analysis_safe_default _ _
    (Or.inr ⟨"no structured output", rfl, Or.inl (by decide)⟩)

/-! ### C3 — rejection short-circuits the pipeline -/

/-- C3: when the Input Guard rejects the query, the orchestrator's result
is exactly the validated initial state (plus the elapsed-time stamp the
orchestrator always writes): no downstream field is touched and no oracle
other than the document count is consulted, since the result is the same
for every choice of model, store and search outcomes. -/
theorem invalid_query_halts_pipeline (env : Env) (q : String)
    (h : (validate_query q).valid = false) :
    invoke env q =
      { initial_state q env.doc_count with
        is_valid := false
        validation_reason := (validate_query q).reason
        processing_time_set := true } := by
  unfold invoke runGraph input_validation_node
  dsimp only [initial_state]
  rw [h]
  rfl

/-- C3 (witness): `"SELECT * FROM users"` is rejected with the SQL-pattern
reason and the pipeline halts in the validated state. -/
theorem invalid_query_halts_pipeline_witness :
    (validate_query "SELECT * FROM users").valid = false ∧
    (validate_query "SELECT * FROM users").reason =
      "Query contains potentially malicious SQL patterns" ∧
    invoke envBase "SELECT * FROM users" =
      { initial_state "SELECT * FROM users" envBase.doc_count with
        is_valid := false
        validation_reason := (validate_query "SELECT * FROM users").reason
        processing_time_set := true } :=
  ⟨by decide, by decide, invalid_query_halts_pipeline envBase "SELECT * FROM users" (by decide)⟩

/-! ### C4 — Router invariants -/

/-- A state the classifier can reach: the model labelled the query with
the unrecognised intent `"unclear"` at confidence `0.8`, no documents. -/
def stateUnclear : AgentState :=
  { initial_state "status" 0 with query_intent := some "unclear", confidence := mkRat 4 5 }

/-- C4 (counterexample): after routing `stateUnclear`, `selected_tool` is
none of `rag`/`llm`/`search` — it is still unset — so the exactly-one
disjunction of the claim fails. -/
theorem router_node_leaves_tool_unset :
    ¬ ((router_node stateUnclear).selected_tool = some Tool.rag ∨
       (router_node stateUnclear).selected_tool = some Tool.llm ∨
       (router_node stateUnclear).selected_tool = some Tool.search) := by
  decide

/-- C4 (amended): whenever the routing policy assigns a tool — corpus
present with non-search intent, or low confidence, or one of the three
recognised intent labels — the routed state selects exactly one of the
three tools, `attempted_tools` does not shrink, and it contains the
selected tool. -/
theorem router_node_invariants (s : AgentState)
    (h : (0 < s.doc_count ∧ s.query_intent ≠ some "search") ∨
         s.confidence < mkRat 7 10 ∨
         s.query_intent = some "document" ∨ s.query_intent = some "knowledge" ∨
         s.query_intent = some "search") :
    ExactlyOne ((router_node s).selected_tool = some Tool.rag)
      ((router_node s).selected_tool = some Tool.llm)
      ((router_node s).selected_tool = some Tool.search) ∧
    s.attempted_tools.length ≤ (router_node s).attempted_tools.length ∧
    (router_node s).selected_tool ∈ (router_node s).attempted_tools := by
  obtain ⟨t, ht⟩ : ∃ t, route s.query_intent s.confidence s.doc_count = some t := by
    unfold route
    split_ifs with h1 h2 h3 h4 h5 <;> try exact ⟨_, rfl⟩
    exfalso
    rcases h with h' | h' | h' | h' | h'
    · exact h1 h'
    · exact absurd h2 (not_le.mpr h')
    · exact h3 h'
    · exact h4 h'
    · exact h5 h'
  rw [router_node_of_route_some ht]
  refine ⟨?_, ?_, ?_⟩
  · unfold ExactlyOne
    cases t <;> simp
  · simp
  · simp

/-- A routable state: recognised intent `"knowledge"` at confidence `0.9`,
no documents. -/
def stateKnowledge : AgentState :=
  { initial_state "what is ml" 0 with query_intent := some "knowledge", confidence := mkRat 9 10 }

/-- C4 (witness): the amended invariants at the concrete state routed to
the knowledge tool. -/
theorem router_node_invariants_witness :
    ExactlyOne ((router_node stateKnowledge).selected_tool = some Tool.rag)
      ((router_node stateKnowledge).selected_tool = some Tool.llm)
      ((router_node stateKnowledge).selected_tool = some Tool.search) ∧
    stateKnowledge.attempted_tools.length ≤ (router_node stateKnowledge).attempted_tools.length ∧
    (router_node stateKnowledge).selected_tool ∈ (router_node stateKnowledge).attempted_tools :=
  router_node_invariants stateKnowledge (Or.inr (Or.inr (Or.inr (Or.inl rfl))))

/-! ### C6 — the orchestrator absorbs internal failures -/

/-- C6: `invoke` is a total function — every call returns a well-formed
terminal state with the time stamp populated — and whenever the graph run
escapes with an internal error, the returned state carries that error text
together with the generic user-safe answer. -/
theorem invoke_absorbs_pipeline_errors (env : Env) (q : String) :
    (invoke env q).processing_time_set = true ∧
    ∀ e, runGraph env (initial_state q env.doc_count) = .error e →
      invoke env q =
        { initial_state q env.doc_count with
          error := some e
          response := "An error occurred while processing your query."
          processing_time_set := true } := by
  constructor
  · unfold invoke
    dsimp only
    cases runGraph env (initial_state q env.doc_count) <;> rfl
  · intro e he
    unfold invoke
    dsimp only
    rw [he]

/-- An environment whose relevance-scoring model call raises an exception
that the scorer does not catch. -/
def envBoom : Env :=
  { envBase with
    doc_count := 2
    chromaRaw := .ok [(docA, mkRat 9 10)]
    scorerCall := .raise "boom" }

/-- C6 (witness): the scorer exception `"boom"` escapes the gate and the
orchestrator converts it into the generic error state. -/
theorem invoke_absorbs_pipeline_errors_witness :
    invoke envBoom "summary of alpha" =
      { initial_state "summary of alpha" envBoom.doc_count with
        error := some "boom"
        response := "An error occurred while processing your query."
        processing_time_set := true } :=
  (invoke_absorbs_pipeline_errors envBoom "summary of alpha").2 "boom" rfl

/-! ### Node-level helper lemmas for the end-to-end theorems -/

/-- The state entering the router: validation followed by intent analysis
on the orchestrator's initial state. -/
def afterAnalysis (env : Env) (q : String) : AgentState :=
  query_analysis_node env (input_validation_node (initial_state q env.doc_count))

/-- Fields of the pre-router state that neither validation nor analysis
touches. -/
theorem afterAnalysis_untouched (env : Env) (q : String) :
    (afterAnalysis env q).query = q ∧
    (afterAnalysis env q).doc_count = env.doc_count ∧
    (afterAnalysis env q).needs_fallback = false ∧
    (afterAnalysis env q).attempted_tools = [] ∧
    (afterAnalysis env q).selected_tool = none ∧
    (afterAnalysis env q).is_valid = (validate_query q).valid := by
  unfold afterAnalysis query_analysis_node input_validation_node initial_state
  cases env.analysisCall with
  | raise m => exact ⟨rfl, rfl, rfl, rfl, rfl, rfl⟩
  | ok c =>
    dsimp only
    cases parseAnalysis env.pyFloat c <;> exact ⟨rfl, rfl, rfl, rfl, rfl, rfl⟩

/-- With an empty (post-filter) store result, `rag_node` records no
documents and requests fallback. -/
theorem rag_node_empty (env : Env) (s : AgentState)
    (h : similarity_search_with_score env.cfg env.chromaRaw = []) :
    rag_node env s = { s with retrieved_documents := [], needs_fallback := true } := by
  unfold rag_node rag_tool
  rw [h]
  rfl

/-- With a non-empty (post-filter) store result, `rag_node` records the
surviving documents and does not touch `needs_fallback`. -/
theorem rag_node_nonempty (env : Env) (s : AgentState)
    (h : similarity_search_with_score env.cfg env.chromaRaw ≠ []) :
    rag_node env s =
      { s with retrieved_documents :=
          (similarity_search_with_score env.cfg env.chromaRaw).map Prod.fst } := by
  unfold rag_node rag_tool
  have hlen : 0 < ((similarity_search_with_score env.cfg env.chromaRaw).map Prod.fst).length := by
    simpa [List.length_pos] using h
  dsimp only
  rw [decide_eq_true hlen]
  rfl

/-- The relevance gate short-circuits on empty evidence. -/
theorem relevance_check_node_empty_docs (env : Env) (s : AgentState)
    (h : s.retrieved_documents = []) :
    relevance_check_node env s =
      .ok { s with is_relevant := false, relevance_score := 0, needs_fallback := true } := by
  unfold relevance_check_node
  rw [h]
  rfl

/-- With evidence present and a scorer response that does not parse as a
float, the relevance gate stores the default `score = 0.5`,
`is_relevant = true`. -/
theorem relevance_check_node_parse_default (env : Env) (s : AgentState) (content : String)
    (hdocs : s.retrieved_documents ≠ [])
    (hcall : env.scorerCall = LLMCall.ok content)
    (hparse : env.pyFloat (pyStrip content) = none) :
    relevance_check_node env s =
      .ok { s with is_relevant := true, relevance_score := mkRat 1 2 } := by
  unfold relevance_check_node score_relevance
  have hne : s.retrieved_documents.isEmpty = false := by
    simpa [List.isEmpty_iff] using hdocs
  rw [hne, hcall]
  dsimp only
  rw [hparse]
  rfl

/-- The knowledge tool on a successful model call stores the answer and
marks the source `"llm"`. -/
theorem llm_node_ok (env : Env) (s : AgentState) {content : String}
    (h : env.llmToolCall = LLMCall.ok content) :
    llm_node env s = { s with response := content, source_type := "llm" } := by
  unfold llm_node
  rw [h]

/-- The synthesizer on non-empty evidence and a successful model call
stores the answer and marks the source `"rag"`. -/
theorem response_synthesis_node_ok (env : Env) (s : AgentState) {ans : String}
    (hdocs : s.retrieved_documents ≠ [])
    (h : env.synthesisCall = LLMCall.ok ans) :
    response_synthesis_node env s = { s with response := ans, source_type := "rag" } := by
  unfold response_synthesis_node
  have hne : s.retrieved_documents.isEmpty = false := by
    simpa [List.isEmpty_iff] using hdocs
  rw [hne, h]
  rfl

/-- For a state whose source is `"llm"`, the grounding check node
short-circuits to grounded with confidence 1 and leaves the response
alone. -/
theorem hallucination_check_node_llm_source (env : Env) (s : AgentState)
    (h : s.source_type = "llm") :
    hallucination_check_node env s =
      .ok { s with is_grounded := true, grounding_confidence := 1 } := by
  unfold hallucination_check_node check_grounding ragContext
  rw [h]
  rfl

/-- When the grounding model call returns normally the grounding node
cannot fail, and it never changes the relevance verdict, the answer
source, or the fallback flag. -/
theorem hallucination_check_node_ok_preserves (env : Env) (s : AgentState) {g : String}
    (hg : env.groundingCall = LLMCall.ok g) :
    ∃ s', hallucination_check_node env s = .ok s' ∧
      s'.relevance_score = s.relevance_score ∧
      s'.is_relevant = s.is_relevant ∧
      s'.source_type = s.source_type ∧
      s'.needs_fallback = s.needs_fallback := by
  unfold hallucination_check_node
  have hok : ∃ r, check_grounding env.cfg env.pyFloat env.groundingCall
      (ragContext s) s.source_type = .ok r := by
    unfold check_grounding
    rw [hg]
    split_ifs
    · exact ⟨_, rfl⟩
    · exact ⟨_, rfl⟩
    · dsimp only
      cases env.pyFloat (pyStrip g) <;> exact ⟨_, rfl⟩
  obtain ⟨r, hr⟩ := hok
  rw [hr]
  dsimp only
  refine ⟨_, rfl, ?_, ?_, ?_, ?_⟩ <;> (split <;> rfl)

/-! ### C5 — empty retrieval falls back to the knowledge tool -/

/-- An environment with documents indexed but nothing retrieved, whose
knowledge-tool model call also fails. -/
def envRagEmptyLlmDown : Env :=
  { envBase with
    doc_count := 5
    chromaRaw := .ok []
    llmToolCall := .raise "llm down" }

/-- C5 (counterexample): retrieval returns zero passages and the fallback
knowledge tool's model call fails; the terminal state then has
`answer_source = ""`, not `"llm"` — the claim's unconditional
`answer_source = knowledge` is refuted. -/
theorem empty_retrieval_failed_fallback_not_llm :
    (invoke envRagEmptyLlmDown "what does the report say").retrieved_documents = [] ∧
    (invoke envRagEmptyLlmDown "what does the report say").attempted_tools = [some Tool.rag] ∧
    (invoke envRagEmptyLlmDown "what does the report say").source_type = "" ∧
    (invoke envRagEmptyLlmDown "what does the report say").source_type ≠ "llm" :=
  ⟨rfl, rfl, rfl, by decide⟩

/-- C5 (amended): whenever the query is accepted, the router selects
retrieval, the store returns zero passages, and the knowledge tool's model
call succeeds, the Relevance Gate short-circuits to
`score = 0, is_relevant = false, needs_fallback = true` with no scorer
call (the result does not depend on the scorer oracle), control falls back
to the knowledge tool, and the terminal state has `source_type = "llm"`
with the knowledge answer. -/
theorem empty_retrieval_falls_back_to_knowledge (env : Env) (q content : String)
    (hv : (validate_query q).valid = true)
    (hroute : route (afterAnalysis env q).query_intent (afterAnalysis env q).confidence
        (afterAnalysis env q).doc_count = some Tool.rag)
    (hempty : similarity_search_with_score env.cfg env.chromaRaw = [])
    (hllm : env.llmToolCall = LLMCall.ok content) :
    invoke env q =
      { afterAnalysis env q with
        selected_tool := some Tool.rag
        attempted_tools := (afterAnalysis env q).attempted_tools ++ [some Tool.rag]
        retrieved_documents := []
        relevance_score := 0
        is_relevant := false
        needs_fallback := true
        response := content
        source_type := "llm"
        is_grounded := true
        grounding_confidence := 1
        processing_time_set := true } := by
  have hAA : query_analysis_node env (input_validation_node (initial_state q env.doc_count))
      = afterAnalysis env q := rfl
  have hvalid : (input_validation_node (initial_state q env.doc_count)).is_valid = true := by
    simp [input_validation_node, initial_state, hv]
  unfold invoke runGraph
  dsimp only
  rw [if_pos hvalid, hAA, router_node_of_route_some hroute]
  dsimp only
  rw [rag_node_empty env _ hempty]
  rw [relevance_check_node_empty_docs env _ rfl]
  dsimp only
  rw [if_neg Bool.false_ne_true]
  rw [llm_node_ok env _ hllm]
  rw [hallucination_check_node_llm_source env _ rfl]

/-- An environment with documents indexed, empty retrieval, and a healthy
knowledge tool. -/
def envC5w : Env :=
  { envBase with
    doc_count := 3
    chromaRaw := .ok []
    llmToolCall := .ok "From general knowledge: yes." }

/-- C5 (witness): the fallback scenario at a concrete environment. -/
theorem empty_retrieval_falls_back_to_knowledge_witness :
    invoke envC5w "tell me about the capital" =
      { afterAnalysis envC5w "tell me about the capital" with
        selected_tool := some Tool.rag
        attempted_tools :=
          (afterAnalysis envC5w "tell me about the capital").attempted_tools ++ [some Tool.rag]
        retrieved_documents := []
        relevance_score := 0
        is_relevant := false
        needs_fallback := true
        response := "From general knowledge: yes."
        source_type := "llm"
        is_grounded := true
        grounding_confidence := 1
        processing_time_set := true } :=
  empty_retrieval_falls_back_to_knowledge envC5w "tell me about the capital"
    "From general knowledge: yes." (by decide) (by decide) rfl rfl

/-! ### C7 — relevance-gate failure handling -/

/-- An environment with one good passage whose relevance-scoring model
call raises an exception. -/
def envScorerRaise : Env :=
  { envBase with
    doc_count := 1
    chromaRaw := .ok [(docA, mkRat 4 5)]
    scorerCall := .raise "api timeout" }

/-- C7 (counterexample): with non-empty evidence, a model call that
RAISES (rather than returning an unparsable string) is not caught by the
scorer — the exception aborts the pipeline, the terminal state keeps
`is_relevant = false` and `score = 0`, no synthesis happens, and the
orchestrator reports the error — refuting the claimed `score = 0.5,
is_relevant = true, proceed to synthesis` for the raising case. -/
theorem relevance_model_exception_aborts_pipeline :
    envScorerRaise.scorerCall = LLMCall.raise "api timeout" ∧
    (rag_tool envScorerRaise.cfg envScorerRaise.chromaRaw).documents ≠ [] ∧
    (invoke envScorerRaise "what was revenue").is_relevant = false ∧
    (invoke envScorerRaise "what was revenue").relevance_score ≠ mkRat 1 2 ∧
    (invoke envScorerRaise "what was revenue").source_type ≠ "rag" ∧
    (invoke envScorerRaise "what was revenue").error = some "api timeout" :=
  ⟨rfl, by decide, rfl, by decide, by decide, rfl⟩

/-- C7 (amended): with non-empty evidence, when the scorer's model call
returns but its output does not parse as a number, the gate stores
`score = 0.5, is_relevant = true` regardless of the configured threshold
and the pipeline proceeds to synthesis instead of falling back (terminal
`source_type = "rag"`, `needs_fallback = false`), provided the later
synthesis and grounding model calls return; a raising model call instead
aborts to the orchestrator's error handler. -/
theorem relevance_parse_failure_defaults_and_synthesizes (env : Env)
    (q content ans g : String)
    (hv : (validate_query q).valid = true)
    (hroute : route (afterAnalysis env q).query_intent (afterAnalysis env q).confidence
        (afterAnalysis env q).doc_count = some Tool.rag)
    (hdocs : similarity_search_with_score env.cfg env.chromaRaw ≠ [])
    (hscore : env.scorerCall = LLMCall.ok content)
    (hparse : env.pyFloat (pyStrip content) = none)
    (hsynth : env.synthesisCall = LLMCall.ok ans)
    (hground : env.groundingCall = LLMCall.ok g) :
    (invoke env q).relevance_score = mkRat 1 2 ∧
    (invoke env q).is_relevant = true ∧
    (invoke env q).source_type = "rag" ∧
    (invoke env q).needs_fallback = false := by
  have hAA : query_analysis_node env (input_validation_node (initial_state q env.doc_count))
      = afterAnalysis env q := rfl
  have hvalid : (input_validation_node (initial_state q env.doc_count)).is_valid = true := by
    simp [input_validation_node, initial_state, hv]
  have hmap : (similarity_search_with_score env.cfg env.chromaRaw).map Prod.fst ≠ [] :=
    fun hm => hdocs (List.map_eq_nil_iff.mp hm)
  set S6 : AgentState :=
    { afterAnalysis env q with
      selected_tool := some Tool.rag
      attempted_tools := (afterAnalysis env q).attempted_tools ++ [some Tool.rag]
      retrieved_documents := (similarity_search_with_score env.cfg env.chromaRaw).map Prod.fst
      relevance_score := mkRat 1 2
      is_relevant := true
      response := ans
      source_type := "rag" } with hS6
  have hrun : runGraph env (initial_state q env.doc_count) =
      hallucination_check_node env S6 := by
    unfold runGraph
    dsimp only
    rw [if_pos hvalid, hAA, router_node_of_route_some hroute]
    dsimp only
    rw [rag_node_nonempty env _ hdocs]
    rw [relevance_check_node_parse_default env _ content hmap hscore hparse]
    dsimp only
    rw [if_pos rfl]
    rw [response_synthesis_node_ok env _ hmap hsynth]
  obtain ⟨s', hs', h1, h2, h3, h4⟩ := hallucination_check_node_ok_preserves env S6 hground
  have hres : invoke env q = { s' with processing_time_set := true } := by
    unfold invoke
    dsimp only
    rw [hrun, hs']
  rw [hres]
  exact ⟨h1, h2, h3, h4.trans (afterAnalysis_untouched env q).2.2.1⟩

/-- An environment with one good passage, an unparsable scorer response,
and healthy synthesis and grounding calls. -/
def envC7w : Env :=
  { envBase with
    doc_count := 1
    chromaRaw := .ok [(docA, mkRat 9 10)]
    scorerCall := .ok "maybe"
    synthesisCall := .ok "The answer is alpha."
    groundingCall := .ok "0.9" }

/-- C7 (witness): the parse-failure default at a concrete environment. -/
theorem relevance_parse_failure_defaults_and_synthesizes_witness :
    (invoke envC7w "what is alpha").relevance_score = mkRat 1 2 ∧
    (invoke envC7w "what is alpha").is_relevant = true ∧
    (invoke envC7w "what is alpha").source_type = "rag" ∧
    (invoke envC7w "what is alpha").needs_fallback = false :=
  relevance_parse_failure_defaults_and_synthesizes envC7w "what is alpha"
    "maybe" "The answer is alpha." "0.9" (by decide) (by decide) (by decide) rfl rfl rfl rfl

end AgenticRAG
